import Mathlib

/-!
Verification of the `FixedJointConnnector` component
(src/syrillian/src/engine/components/fixed_joint.rs).

The connector itself is translated directly from the Rust source.  The two
external collaborators — the Object Directory (existence check + rigid-body
component lookup) and the Physics World joint registry — are modelled from
the spec, which specifies them only at their interface boundary.
Machine integers and handles are modelled as `Nat`; geometric values
(`Point3<f32>`, `Isometry3<f32>`) are only ever copied by this code, never
computed with, so they are modelled as records of integers with the two
distinguished default values (origin, identity).
-/

/-- Scene-graph object identity (`GameObjectId`). -/
abbrev GameObjectId : Type := Nat

/-- Handle of a rigid body inside the physics world (`RigidBodyHandle`). -/
abbrev RigidBodyHandle : Type := Nat

/-- Handle into the impulse-joint registry (`ImpulseJointHandle`). -/
abbrev ImpulseJointHandle : Type := Nat

/-- A 3D point (`Point3<f32>`); only copied by this component, never computed with. -/
structure Point3 where
  x : Int
  y : Int
  z : Int
deriving DecidableEq, Repr

/-- Source `Point3::origin()`. -/
def Point3.origin : Point3 := ⟨0, 0, 0⟩

/-- A rotation (unit quaternion) component of an isometry; only copied. -/
structure Quat where
  w : Int
  i : Int
  j : Int
  k : Int
deriving DecidableEq, Repr

/-- A 3D rigid transform (`Isometry3<f32>`); only copied by this component. -/
structure Isometry3 where
  rot : Quat
  trans : Point3
deriving DecidableEq, Repr

/-- Source `Isometry3::identity()`. -/
def Isometry3.identity : Isometry3 := ⟨⟨1, 0, 0, 0⟩, Point3.origin⟩

/-- The error taxonomy of the component (`FixedJointComponentError`). -/
inductive FixedJointComponentError where
  | InvalidConnector
  | NoParentRigidBody
  | NoConnectorRigidBody
deriving DecidableEq, Repr

/-- Outcome of running a fallible Rust operation: normal return, typed error,
or divergence (a Rust panic, e.g. `unwrap` on `None`). -/
inductive RustOutcome where
  | ok
  | err (e : FixedJointComponentError)
  | diverged
deriving DecidableEq, Repr

/-- Modelled from the spec: the live fixed-joint constraint object stored in
the Physics World (`FixedJoint`), described in the spec as holding the two
local anchors and two local frames pushed into it by this component. -/
structure FixedJoint where
  local_anchor1 : Point3
  local_anchor2 : Point3
  local_frame1 : Isometry3
  local_frame2 : Isometry3
deriving DecidableEq, Repr

/-- Modelled from the spec: a stored constraint is polymorphic over joint
kinds and exposes a fixed-kind downcast; non-fixed kinds are collapsed to
one constructor since this component never inspects them. -/
inductive JointData where
  | fixedJoint (j : FixedJoint)
  | otherJoint
deriving DecidableEq, Repr

/-- The fixed-kind downcast (`GenericJoint::as_fixed`). -/
def JointData.as_fixed : JointData → Option FixedJoint
  | .fixedJoint j => some j
  | .otherJoint => none

/-- Modelled from the spec: one entry of the impulse-joint registry,
associating the two rigid bodies with the constraint data (`ImpulseJoint`). -/
structure ImpulseJoint where
  body1 : RigidBodyHandle
  body2 : RigidBodyHandle
  data : JointData
deriving DecidableEq

/-- Modelled from the spec: the Physics World joint registry
(`ImpulseJointSet`): an association list keyed by opaque generational
handles, with a counter allocating fresh handles on insert. -/
structure ImpulseJointSet where
  joints : List (ImpulseJointHandle × ImpulseJoint)
  nextHandle : ImpulseJointHandle
deriving DecidableEq

/-- Source `ImpulseJointSet::insert(body1, body2, joint, wake_up)`: allocates a
fresh handle for the entry and returns it.  The wake flag only affects body
sleep state, which is outside this model. -/
def ImpulseJointSet.insert (s : ImpulseJointSet) (b1 : RigidBodyHandle)
    (b2 : RigidBodyHandle) (d : JointData) (wakeUp : Bool) :
    ImpulseJointHandle × ImpulseJointSet :=
  let _ := wakeUp
  (s.nextHandle, ⟨(s.nextHandle, ⟨b1, b2, d⟩) :: s.joints, s.nextHandle + 1⟩)

/-- Source `ImpulseJointSet::remove(handle, wake_up)`: drops the entry keyed by the
handle, if any. -/
def ImpulseJointSet.remove (s : ImpulseJointSet) (h : ImpulseJointHandle)
    (wakeUp : Bool) : ImpulseJointSet :=
  let _ := wakeUp
  ⟨s.joints.filter (fun p => decide (p.1 ≠ h)), s.nextHandle⟩

/-- Source `ImpulseJointSet::get(handle)`: registry lookup; a stale handle yields
absence. -/
def ImpulseJointSet.get (s : ImpulseJointSet) (h : ImpulseJointHandle) :
    Option ImpulseJoint :=
  s.joints.lookup h

/-- Modelled from the spec: the physics portion of the `World`. -/
structure PhysicsState where
  impulse_joint_set : ImpulseJointSet
deriving DecidableEq

/-- Modelled from the spec: the world as seen by this component — the Object
Directory (existence + rigid-body component lookup, where the lookup yields
the component's `body_handle`) and the Physics World. -/
structure World where
  objects : List GameObjectId
  rigidBodies : List (GameObjectId × RigidBodyHandle)
  physics : PhysicsState

/-- Source `GameObjectId::exists()` against a given world. -/
def World.objectExists (w : World) (id : GameObjectId) : Bool :=
  w.objects.contains id

/-- Source `get_component::<RigidBodyComponent>()` followed by `.body_handle`. -/
def World.getRigidBody (w : World) (id : GameObjectId) :
    Option RigidBodyHandle :=
  w.rigidBodies.lookup id

/-- The connector component state (`FixedJointConnnector`). -/
structure FixedJointConnnector where
  parent : GameObjectId
  connected : Option GameObjectId
  handle : Option ImpulseJointHandle
  local_anchor1 : Point3
  local_anchor2 : Point3
  local_frame1 : Isometry3
  local_frame2 : Isometry3

namespace FixedJointConnnector

/-- Source `NewComponent::new(parent)`. -/
def new (parent : GameObjectId) : FixedJointConnnector :=
  { parent := parent
    connected := none
    handle := none
    local_anchor1 := Point3.origin
    local_anchor2 := Point3.origin
    local_frame1 := Isometry3.identity
    local_frame2 := Isometry3.identity }

/-- Source `try_connect_to(body)`.  The `ensure!` guard returns
`Err(InvalidConnector)`.  The two rigid-body lookups in the source are
`.ok_or(...).unwrap()`: on `None` they do not return the error, they panic —
modelled as `RustOutcome.diverged` with the state as it was at that point. -/
def try_connect_to (s : FixedJointConnnector) (body : GameObjectId)
    (w : World) : RustOutcome × FixedJointConnnector × World :=
  if ¬ w.objectExists body then
    (.err .InvalidConnector, s, w)
  else
    match w.getRigidBody s.parent with
    | none => (.diverged, s, w)
    | some self_rb =>
      match w.getRigidBody body with
      | none => (.diverged, s, w)
      | some other_rb =>
        let joint : FixedJoint :=
          ⟨s.local_anchor1, s.local_anchor2, s.local_frame1, s.local_frame2⟩
        let ins := w.physics.impulse_joint_set.insert self_rb other_rb
          (.fixedJoint joint) true
        (.ok,
         { s with connected := some body, handle := some ins.1 },
         { w with physics := ⟨ins.2⟩ })

/-- Source `connect_to(body)`: delegates to `try_connect_to`; an `Err` is caught
and logged with `warn!` (the log is modelled as the list of warned errors);
a panic propagates. -/
def connect_to (s : FixedJointConnnector) (body : GameObjectId) (w : World) :
    RustOutcome × List FixedJointComponentError × FixedJointConnnector × World :=
  match s.try_connect_to body w with
  | (.ok, s1, w1) => (.ok, [], s1, w1)
  | (.err e, s1, w1) => (.ok, [e], s1, w1)
  | (.diverged, s1, w1) => (.diverged, [], s1, w1)

/-- Source `disconnect(world)`. -/
def disconnect (s : FixedJointConnnector) (w : World) :
    FixedJointConnnector × World :=
  match s.handle with
  | some joint =>
    ({ s with handle := none, connected := none },
     { w with physics := ⟨w.physics.impulse_joint_set.remove joint false⟩ })
  | none => (s, w)

/-- Source `Component::delete(world)`. -/
def delete (s : FixedJointConnnector) (w : World) :
    FixedJointConnnector × World :=
  s.disconnect w

/-- Source `joint()`: handle present, registry lookup succeeds, fixed-kind downcast
succeeds; any failure yields `none`. -/
def joint (s : FixedJointConnnector) (w : World) : Option FixedJoint := do
  let h ← s.handle
  let ij ← w.physics.impulse_joint_set.get h
  ij.data.as_fixed

/-- Source `joint_mut()`: same resolution path as `joint()`, via `get_mut` and the
mutable fixed-kind downcast. -/
def joint_mut (s : FixedJointConnnector) (w : World) : Option FixedJoint :=
  s.joint w

/-- Modelled from the spec: writing through the mutable borrow returned by
`get_mut` rewrites the constraint stored at the entry the lookup resolves to
(the first occurrence of the key), when that constraint is fixed-kind;
otherwise nothing is written. -/
def writeFixedList : List (ImpulseJointHandle × ImpulseJoint) →
    ImpulseJointHandle → (FixedJoint → FixedJoint) →
    List (ImpulseJointHandle × ImpulseJoint)
  | [], _, _ => []
  | p :: ps, h, f =>
    if p.1 = h then
      (match p.2.data.as_fixed with
       | some j => (p.1, ⟨p.2.body1, p.2.body2, .fixedJoint (f j)⟩)
       | none => p) :: ps
    else p :: writeFixedList ps h f

/-- Modelled from the spec: the effect on the world of mutating the live
fixed joint through `joint_mut()`, guarded exactly as the source guards it:
if the handle is absent, stale, or resolves to a non-fixed constraint, the
world is unchanged. -/
def writeThrough (s : FixedJointConnnector) (w : World)
    (f : FixedJoint → FixedJoint) : World :=
  match s.handle with
  | none => w
  | some h =>
    { w with physics := ⟨⟨writeFixedList w.physics.impulse_joint_set.joints h f,
        w.physics.impulse_joint_set.nextHandle⟩⟩ }

/-- Source `set_local_anchor1(anchor)`. -/
def set_local_anchor1 (s : FixedJointConnnector) (anchor : Point3)
    (w : World) : FixedJointConnnector × World :=
  let s1 := { s with local_anchor1 := anchor }
  (s1, s1.writeThrough w (fun j => { j with local_anchor1 := anchor }))

/-- Source `set_local_anchor2(anchor)`. -/
def set_local_anchor2 (s : FixedJointConnnector) (anchor : Point3)
    (w : World) : FixedJointConnnector × World :=
  let s1 := { s with local_anchor2 := anchor }
  (s1, s1.writeThrough w (fun j => { j with local_anchor2 := anchor }))

/-- Source `set_local_frame1(frame)`. -/
def set_local_frame1 (s : FixedJointConnnector) (frame : Isometry3)
    (w : World) : FixedJointConnnector × World :=
  let s1 := { s with local_frame1 := frame }
  (s1, s1.writeThrough w (fun j => { j with local_frame1 := frame }))

/-- Source `set_local_frame2(frame)`. -/
def set_local_frame2 (s : FixedJointConnnector) (frame : Isometry3)
    (w : World) : FixedJointConnnector × World :=
  let s1 := { s with local_frame2 := frame }
  (s1, s1.writeThrough w (fun j => { j with local_frame2 := frame }))

end FixedJointConnnector

/-- The spec invariant on a connector: the optional peer and the optional
joint handle are present or absent together. -/
def peerJointInv (s : FixedJointConnnector) : Prop :=
  s.connected.isSome = s.handle.isSome

/-- Two connector states agree on the four cached geometry fields. -/
def geomEq (a b : FixedJointConnnector) : Prop :=
  a.local_anchor1 = b.local_anchor1 ∧ a.local_anchor2 = b.local_anchor2
    ∧ a.local_frame1 = b.local_frame1 ∧ a.local_frame2 = b.local_frame2

/-- Well-formedness of the joint registry: every allocated key is below the
fresh-handle counter (generational allocation never reuses a live key). -/
def registryWF (js : ImpulseJointSet) : Prop :=
  ∀ p ∈ js.joints, p.1 < js.nextHandle

/-- A sample non-default anchor. -/
def pTest : Point3 := ⟨1, 2, 3⟩

/-- A sample non-default frame. -/
def fTest : Isometry3 := ⟨⟨0, 1, 0, 0⟩, ⟨4, 5, 6⟩⟩

/-- A fixed joint with the default geometry. -/
def jDefault : FixedJoint :=
  ⟨Point3.origin, Point3.origin, Isometry3.identity, Isometry3.identity⟩

/-- World with objects 1 and 2, both carrying rigid bodies, empty registry. -/
def wBothRb : World := ⟨[1, 2], [(1, 10), (2, 20)], ⟨⟨[], 0⟩⟩⟩

/-- World where the owner (object 1) has no rigid body but the peer does. -/
def wOwnerNoRb : World := ⟨[1, 2], [(2, 20)], ⟨⟨[], 0⟩⟩⟩

/-- World where the owner has a rigid body but the peer (object 2) has none. -/
def wPeerNoRb : World := ⟨[1, 2], [(1, 10)], ⟨⟨[], 0⟩⟩⟩

/-- World whose registry already stores a fixed joint under handle 0. -/
def wJoint : World :=
  ⟨[1, 2], [(1, 10), (2, 20)], ⟨⟨[(0, ⟨10, 20, .fixedJoint jDefault⟩)], 1⟩⟩⟩

/-- A connector on object 1 currently connected to object 2 via handle 0. -/
def sJoint : FixedJointConnnector :=
  ⟨1, some 2, some 0, Point3.origin, Point3.origin,
   Isometry3.identity, Isometry3.identity⟩

/-- Lookup after a write at a missing key: nothing changes. -/
lemma writeFixedList_of_lookup_none
    (l : List (ImpulseJointHandle × ImpulseJoint)) (h : ImpulseJointHandle)
    (f : FixedJoint → FixedJoint) (hl : l.lookup h = none) :
    FixedJointConnnector.writeFixedList l h f = l := by
  induction l with
  | nil => rfl
  | cons p ps ih =>
    obtain ⟨k, v⟩ := p
    simp only [List.lookup] at hl
    by_cases hk : h = k
    · simp [hk] at hl
    · have hb : (h == k) = false := beq_false_of_ne hk
      rw [hb] at hl
      simp only [FixedJointConnnector.writeFixedList]
      rw [if_neg (fun he => hk he.symm), ih hl]

/-- Lookup after a write at a key holding a fixed-kind entry: the entry is
rewritten in place. -/
lemma lookup_writeFixedList_fixed
    (l : List (ImpulseJointHandle × ImpulseJoint)) (h : ImpulseJointHandle)
    (f : FixedJoint → FixedJoint) (ij : ImpulseJoint) (j : FixedJoint)
    (hl : l.lookup h = some ij) (hj : ij.data.as_fixed = some j) :
    (FixedJointConnnector.writeFixedList l h f).lookup h
      = some ⟨ij.body1, ij.body2, .fixedJoint (f j)⟩ := by
  induction l with
  | nil => simp [List.lookup] at hl
  | cons p ps ih =>
    obtain ⟨k, v⟩ := p
    simp only [List.lookup] at hl
    by_cases hk : h = k
    · subst hk
      simp only [beq_self_eq_true] at hl
      obtain rfl : v = ij := by simpa using hl
      simp only [FixedJointConnnector.writeFixedList, if_pos rfl, hj]
      simp [List.lookup]
    · have hb : (h == k) = false := beq_false_of_ne hk
      rw [hb] at hl
      simp only [FixedJointConnnector.writeFixedList]
      rw [if_neg (fun he => hk he.symm)]
      simp only [List.lookup, hb]
      exact ih hl

/-- Write at a key holding a non-fixed entry: nothing changes. -/
lemma writeFixedList_of_nonfixed
    (l : List (ImpulseJointHandle × ImpulseJoint)) (h : ImpulseJointHandle)
    (f : FixedJoint → FixedJoint) (ij : ImpulseJoint)
    (hl : l.lookup h = some ij) (hj : ij.data.as_fixed = none) :
    FixedJointConnnector.writeFixedList l h f = l := by
  induction l with
  | nil => rfl
  | cons p ps ih =>
    obtain ⟨k, v⟩ := p
    simp only [List.lookup] at hl
    by_cases hk : h = k
    · subst hk
      simp only [beq_self_eq_true] at hl
      obtain rfl : v = ij := by simpa using hl
      simp only [FixedJointConnnector.writeFixedList, if_pos rfl, hj]
      simp
    · have hb : (h == k) = false := beq_false_of_ne hk
      rw [hb] at hl
      simp only [FixedJointConnnector.writeFixedList]
      rw [if_neg (fun he => hk he.symm), ih hl]

/-- Filtering out a key makes its lookup fail. -/
lemma lookup_filter_ne (l : List (ImpulseJointHandle × ImpulseJoint))
    (h : ImpulseJointHandle) :
    (l.filter (fun p => decide (p.1 ≠ h))).lookup h = none := by
  induction l with
  | nil => rfl
  | cons p ps ih =>
    obtain ⟨k, v⟩ := p
    by_cases hk : k = h
    · subst hk
      simpa using ih
    · have hd : decide ((k, v).1 ≠ h) = true := by simpa using hk
      rw [List.filter_cons, hd]
      simp only [if_true, List.lookup, beq_false_of_ne (fun he => hk he.symm)]
      exact ih

/-- A successful lookup exhibits a member of the list. -/
lemma mem_of_lookup_eq_some (l : List (ImpulseJointHandle × ImpulseJoint))
    (k : ImpulseJointHandle) (v : ImpulseJoint) (hl : l.lookup k = some v) :
    (k, v) ∈ l := by
  induction l with
  | nil => simp [List.lookup] at hl
  | cons p ps ih =>
    obtain ⟨k1, v1⟩ := p
    simp only [List.lookup] at hl
    by_cases hk : k = k1
    · subst hk
      simp only [beq_self_eq_true] at hl
      obtain rfl : v1 = v := by simpa using hl
      exact List.mem_cons_self _ _
    · rw [beq_false_of_ne hk] at hl
      exact List.mem_cons_of_mem _ (ih hl)

/-- Unfolding of the accessor as an option-bind chain. -/
lemma joint_def (s : FixedJointConnnector) (w : World) :
    s.joint w = s.handle.bind (fun h =>
      (w.physics.impulse_joint_set.get h).bind (fun ij => ij.data.as_fixed)) :=
  rfl

/-- The accessor only looks at the handle, not the rest of the connector. -/
lemma joint_congr_handle (s s1 : FixedJointConnnector) (w : World)
    (h : s.handle = s1.handle) : s.joint w = s1.joint w := by
  rw [joint_def, joint_def, h]

/-- Inversion for a present accessor result. -/
lemma joint_eq_some_iff (s : FixedJointConnnector) (w : World) (j : FixedJoint) :
    s.joint w = some j ↔ ∃ h ij, s.handle = some h
      ∧ w.physics.impulse_joint_set.get h = some ij
      ∧ ij.data.as_fixed = some j := by
  rw [joint_def]
  rcases hh : s.handle with _ | h
  · simp
  · rcases hg : w.physics.impulse_joint_set.get h with _ | ij
    · simp [hg]
    · simp [hg]

/-- Shape of a successful connect: both rigid bodies resolved, the built
joint inserted under the fresh handle, peer and handle recorded. -/
lemma try_connect_to_ok_eq (s : FixedJointConnnector) (body : GameObjectId)
    (w : World) (hok : (s.try_connect_to body w).1 = .ok) :
    ∃ rb1 rb2, w.getRigidBody s.parent = some rb1
      ∧ w.getRigidBody body = some rb2
      ∧ s.try_connect_to body w =
        (.ok,
         { s with connected := some body,
                  handle := some w.physics.impulse_joint_set.nextHandle },
         { w with physics := ⟨⟨(w.physics.impulse_joint_set.nextHandle,
              ⟨rb1, rb2, .fixedJoint ⟨s.local_anchor1, s.local_anchor2,
                 s.local_frame1, s.local_frame2⟩⟩)
              :: w.physics.impulse_joint_set.joints,
            w.physics.impulse_joint_set.nextHandle + 1⟩⟩ }) := by
  unfold FixedJointConnnector.try_connect_to at hok ⊢
  rcases hex : w.objectExists body with _ | _ <;>
    rcases hrb1 : w.getRigidBody s.parent with _ | rb1 <;>
      rcases hrb2 : w.getRigidBody body with _ | rb2 <;>
        simp [hex, hrb1, hrb2] at hok ⊢ <;>
          first
          | rfl
          | exact ⟨rfl, rfl⟩
          | exact ⟨rfl, rfl, rfl⟩

/-- A failed or diverging connect leaves connector and world untouched. -/
lemma try_connect_to_not_ok_eq (s : FixedJointConnnector)
    (body : GameObjectId) (w : World)
    (hok : (s.try_connect_to body w).1 ≠ .ok) :
    s.try_connect_to body w = ((s.try_connect_to body w).1, s, w) := by
  unfold FixedJointConnnector.try_connect_to at hok ⊢
  rcases hex : w.objectExists body with _ | _ <;>
    rcases hrb1 : w.getRigidBody s.parent with _ | rb1 <;>
      rcases hrb2 : w.getRigidBody body with _ | rb2 <;>
        simp [hex, hrb1, hrb2] at hok ⊢

/-- Connecting preserves the peer/handle pairing invariant. -/
lemma peerJointInv_try_connect (s : FixedJointConnnector)
    (body : GameObjectId) (w : World) (h : peerJointInv s) :
    peerJointInv (s.try_connect_to body w).2.1 := by
  by_cases hok : (s.try_connect_to body w).1 = .ok
  · obtain ⟨rb1, rb2, _, _, heq⟩ := try_connect_to_ok_eq s body w hok
    rw [heq]
    rfl
  · rw [try_connect_to_not_ok_eq s body w hok]
    exact h

/-- State carried out of the convenience connect is the state of the
fallible connect. -/
lemma connect_to_state_eq (s : FixedJointConnnector) (body : GameObjectId)
    (w : World) :
    (s.connect_to body w).2.2.1 = (s.try_connect_to body w).2.1
      ∧ (s.connect_to body w).2.2.2 = (s.try_connect_to body w).2.2 := by
  unfold FixedJointConnnector.connect_to
  rcases htc : s.try_connect_to body w with ⟨o, s1, w1⟩
  cases o <;> exact ⟨rfl, rfl⟩

/-- The shape of a disconnect when a handle is present. -/
lemma disconnect_some_eq (s : FixedJointConnnector) (w : World)
    (h0 : ImpulseJointHandle) (hc : s.handle = some h0) :
    s.disconnect w = ({ s with handle := none, connected := none },
      { w with physics := ⟨w.physics.impulse_joint_set.remove h0 false⟩ }) := by
  unfold FixedJointConnnector.disconnect
  rw [hc]

/-- The shape of a disconnect when no handle is present. -/
lemma disconnect_none_eq (s : FixedJointConnnector) (w : World)
    (hc : s.handle = none) : s.disconnect w = (s, w) := by
  unfold FixedJointConnnector.disconnect
  rw [hc]

/-- When the accessor is empty, a write-through leaves the world unchanged. -/
lemma writeThrough_of_joint_none (s : FixedJointConnnector) (w : World)
    (f : FixedJoint → FixedJoint) (hnone : s.joint w = none) :
    s.writeThrough w f = w := by
  unfold FixedJointConnnector.writeThrough
  rcases hh : s.handle with _ | h
  · rfl
  · rw [joint_def, hh] at hnone
    simp only [Option.some_bind] at hnone
    dsimp only
    rcases hg : w.physics.impulse_joint_set.get h with _ | ij
    · rw [writeFixedList_of_lookup_none w.physics.impulse_joint_set.joints h f hg]
    · rw [hg] at hnone
      simp only [Option.some_bind] at hnone
      rw [writeFixedList_of_nonfixed w.physics.impulse_joint_set.joints h f ij hg hnone]

/-- When the accessor is live, a write-through rewrites exactly the live
fixed joint. -/
lemma joint_writeThrough_fixed (s : FixedJointConnnector) (w : World)
    (f : FixedJoint → FixedJoint) (j : FixedJoint) (hj : s.joint w = some j) :
    s.joint (s.writeThrough w f) = some (f j) := by
  obtain ⟨h, ij, hh, hg, hfix⟩ := (joint_eq_some_iff s w j).mp hj
  unfold FixedJointConnnector.writeThrough
  rw [hh, joint_def, hh]
  dsimp only
  simp only [Option.some_bind]
  have hl : (FixedJointConnnector.writeFixedList
      w.physics.impulse_joint_set.joints h f).lookup h
      = some ⟨ij.body1, ij.body2, .fixedJoint (f j)⟩ :=
    lookup_writeFixedList_fixed _ h f ij j hg hfix
  simp only [ImpulseJointSet.get, hl, Option.some_bind]
  rfl

/-- Disconnecting preserves the peer/handle pairing invariant. -/
lemma peerJointInv_disconnect (s : FixedJointConnnector) (w : World)
    (h : peerJointInv s) : peerJointInv (s.disconnect w).1 := by
  rcases hc : s.handle with _ | h0
  · rw [disconnect_none_eq s w hc]
    exact h
  · rw [disconnect_some_eq s w h0 hc]
    rfl

/-- C1: for every connector satisfying the pairing invariant, each public
operation (`new`, `try_connect_to`, `connect_to`, `disconnect`, `delete`,
the four setters) yields a connector in which `connected` is `some` exactly
when `handle` is `some` — the spec invariant
`peer.is_some() == joint_ref.is_some()`.  The accessors `joint` and
`joint_mut` do not produce a connector state at all (they are reads). -/
theorem peer_handle_paired_after_every_operation
    (s : FixedJointConnnector) (p body : GameObjectId) (w : World)
    (a : Point3) (fr : Isometry3) (h : peerJointInv s) :
    peerJointInv (FixedJointConnnector.new p)
    ∧ peerJointInv (s.try_connect_to body w).2.1
    ∧ peerJointInv (s.connect_to body w).2.2.1
    ∧ peerJointInv (s.disconnect w).1
    ∧ peerJointInv (s.delete w).1
    ∧ peerJointInv (s.set_local_anchor1 a w).1
    ∧ peerJointInv (s.set_local_anchor2 a w).1
    ∧ peerJointInv (s.set_local_frame1 fr w).1
    ∧ peerJointInv (s.set_local_frame2 fr w).1 := by
  refine ⟨rfl, peerJointInv_try_connect s body w h, ?_,
    peerJointInv_disconnect s w h, peerJointInv_disconnect s w h,
    h, h, h, h⟩
  rw [(connect_to_state_eq s body w).1]
  exact peerJointInv_try_connect s body w h

/-- Witness for C1 at a connected connector and concrete arguments. -/
theorem peer_handle_paired_after_every_operation_witness :
    peerJointInv sJoint
    ∧ (peerJointInv (FixedJointConnnector.new 3)
       ∧ peerJointInv (sJoint.try_connect_to 2 wBothRb).2.1
       ∧ peerJointInv (sJoint.connect_to 2 wBothRb).2.2.1
       ∧ peerJointInv (sJoint.disconnect wBothRb).1
       ∧ peerJointInv (sJoint.delete wBothRb).1
       ∧ peerJointInv (sJoint.set_local_anchor1 pTest wBothRb).1
       ∧ peerJointInv (sJoint.set_local_anchor2 pTest wBothRb).1
       ∧ peerJointInv (sJoint.set_local_frame1 fTest wBothRb).1
       ∧ peerJointInv (sJoint.set_local_frame2 fTest wBothRb).1) :=
  ⟨by simp [peerJointInv, sJoint],
   peer_handle_paired_after_every_operation sJoint 3 2 wBothRb pTest fTest
     (by simp [peerJointInv, sJoint])⟩

/-- C4: connecting to a peer object absent from the Object Directory
returns `InvalidConnector` and leaves connector and world exactly as they
were. -/
theorem try_connect_nonexistent_rejected
    (s : FixedJointConnnector) (body : GameObjectId) (w : World)
    (h : ¬ w.objectExists body) :
    s.try_connect_to body w = (.err .InvalidConnector, s, w) := by
  unfold FixedJointConnnector.try_connect_to
  simp [h]

/-- Witness for C4: object 5 does not exist in the two-object world. -/
theorem try_connect_nonexistent_rejected_witness :
    ¬ wBothRb.objectExists 5
    ∧ (FixedJointConnnector.new 1).try_connect_to 5 wBothRb
        = (.err .InvalidConnector, FixedJointConnnector.new 1, wBothRb) :=
  ⟨by decide, try_connect_nonexistent_rejected (FixedJointConnnector.new 1) 5
    wBothRb (by decide)⟩

/-- C2 (code bug): the claim says a missing owner rigid body yields
`Err(NoParentRigidBody)` and a missing peer rigid body yields
`Err(NoConnectorRigidBody)`.  The source instead calls
`.ok_or(..).unwrap()`, which panics on the `None` lookup, so both attempts
diverge and the typed errors are never returned. -/
theorem try_connect_missing_rigid_body_diverges :
    ((FixedJointConnnector.new 1).try_connect_to 2 wOwnerNoRb).1
        = RustOutcome.diverged
    ∧ ((FixedJointConnnector.new 1).try_connect_to 2 wPeerNoRb).1
        = RustOutcome.diverged := by
  exact ⟨by decide, by decide⟩

/-- C3 (code bug): the claim says `connect_to` never halts execution.  With
a missing rigid body the panic raised inside `try_connect_to` propagates
straight through `connect_to` (first conjunct).  The catching behaviour the
claim describes does hold for the typed-error path (second conjunct: the
nonexistence error is logged and execution continues with the connector
unchanged). -/
theorem connect_to_panic_escapes :
    ((FixedJointConnnector.new 1).connect_to 2 wOwnerNoRb).1
        = RustOutcome.diverged
    ∧ (FixedJointConnnector.new 1).connect_to 5 wBothRb
        = (.ok, [.InvalidConnector], FixedJointConnnector.new 1, wBothRb) := by
  exact ⟨by decide, rfl⟩

/-- Shared helper: a successful connect stores the cached geometry in a
fixed joint retrievable through the accessor. -/
lemma joint_after_connect_ok
    (s : FixedJointConnnector) (body : GameObjectId) (w : World)
    (hok : (s.try_connect_to body w).1 = .ok) :
    FixedJointConnnector.joint (s.try_connect_to body w).2.1
        (s.try_connect_to body w).2.2
      = some ⟨s.local_anchor1, s.local_anchor2,
              s.local_frame1, s.local_frame2⟩ := by
  obtain ⟨rb1, rb2, h1, h2, heq⟩ := try_connect_to_ok_eq s body w hok
  rw [heq, joint_def]
  simp [ImpulseJointSet.get, List.lookup, JointData.as_fixed]

/-- C5: after a successful `try_connect_to`, `joint()` is present and its
anchors and frames are exactly the four values cached at connection time
(with the default configuration: origin anchors and identity frames, as the
witness shows). -/
theorem joint_present_after_successful_connect
    (s : FixedJointConnnector) (body : GameObjectId) (w : World)
    (hok : (s.try_connect_to body w).1 = .ok) :
    FixedJointConnnector.joint (s.try_connect_to body w).2.1
        (s.try_connect_to body w).2.2
      = some ⟨s.local_anchor1, s.local_anchor2,
              s.local_frame1, s.local_frame2⟩ :=
  joint_after_connect_ok s body w hok

/-- Witness for C5: a default-configured connector connects 1–2; the live
joint has origin anchors and identity frames. -/
theorem joint_present_after_successful_connect_witness :
    ((FixedJointConnnector.new 1).try_connect_to 2 wBothRb).1 = .ok
    ∧ FixedJointConnnector.joint
        ((FixedJointConnnector.new 1).try_connect_to 2 wBothRb).2.1
        ((FixedJointConnnector.new 1).try_connect_to 2 wBothRb).2.2
      = some ⟨Point3.origin, Point3.origin,
              Isometry3.identity, Isometry3.identity⟩ :=
  ⟨by decide, joint_present_after_successful_connect
    (FixedJointConnnector.new 1) 2 wBothRb (by decide)⟩

/-- C6: each setter always updates its cached field; when a live fixed joint
exists the same value lands in the live joint's corresponding field
immediately; when none exists only the cache changes (world untouched); and
the cached value is the one a next successful connect bakes into the new
joint. -/
theorem setters_update_cache_and_live_joint
    (s : FixedJointConnnector) (w : World) (a : Point3) (fr : Isometry3) :
    ((s.set_local_anchor1 a w).1.local_anchor1 = a
      ∧ (∀ j, s.joint w = some j →
          FixedJointConnnector.joint (s.set_local_anchor1 a w).1
              (s.set_local_anchor1 a w).2
            = some { j with local_anchor1 := a })
      ∧ (s.joint w = none → (s.set_local_anchor1 a w).2 = w)
      ∧ (∀ w2 body,
          ((s.set_local_anchor1 a w).1.try_connect_to body w2).1 = .ok →
          FixedJointConnnector.joint
              ((s.set_local_anchor1 a w).1.try_connect_to body w2).2.1
              ((s.set_local_anchor1 a w).1.try_connect_to body w2).2.2
            = some ⟨a, s.local_anchor2, s.local_frame1, s.local_frame2⟩))
    ∧ ((s.set_local_anchor2 a w).1.local_anchor2 = a
      ∧ (∀ j, s.joint w = some j →
          FixedJointConnnector.joint (s.set_local_anchor2 a w).1
              (s.set_local_anchor2 a w).2
            = some { j with local_anchor2 := a })
      ∧ (s.joint w = none → (s.set_local_anchor2 a w).2 = w)
      ∧ (∀ w2 body,
          ((s.set_local_anchor2 a w).1.try_connect_to body w2).1 = .ok →
          FixedJointConnnector.joint
              ((s.set_local_anchor2 a w).1.try_connect_to body w2).2.1
              ((s.set_local_anchor2 a w).1.try_connect_to body w2).2.2
            = some ⟨s.local_anchor1, a, s.local_frame1, s.local_frame2⟩))
    ∧ ((s.set_local_frame1 fr w).1.local_frame1 = fr
      ∧ (∀ j, s.joint w = some j →
          FixedJointConnnector.joint (s.set_local_frame1 fr w).1
              (s.set_local_frame1 fr w).2
            = some { j with local_frame1 := fr })
      ∧ (s.joint w = none → (s.set_local_frame1 fr w).2 = w)
      ∧ (∀ w2 body,
          ((s.set_local_frame1 fr w).1.try_connect_to body w2).1 = .ok →
          FixedJointConnnector.joint
              ((s.set_local_frame1 fr w).1.try_connect_to body w2).2.1
              ((s.set_local_frame1 fr w).1.try_connect_to body w2).2.2
            = some ⟨s.local_anchor1, s.local_anchor2, fr, s.local_frame2⟩))
    ∧ ((s.set_local_frame2 fr w).1.local_frame2 = fr
      ∧ (∀ j, s.joint w = some j →
          FixedJointConnnector.joint (s.set_local_frame2 fr w).1
              (s.set_local_frame2 fr w).2
            = some { j with local_frame2 := fr })
      ∧ (s.joint w = none → (s.set_local_frame2 fr w).2 = w)
      ∧ (∀ w2 body,
          ((s.set_local_frame2 fr w).1.try_connect_to body w2).1 = .ok →
          FixedJointConnnector.joint
              ((s.set_local_frame2 fr w).1.try_connect_to body w2).2.1
              ((s.set_local_frame2 fr w).1.try_connect_to body w2).2.2
            = some ⟨s.local_anchor1, s.local_anchor2, s.local_frame1, fr⟩)) := by
  refine ⟨⟨rfl, ?_, ?_, ?_⟩, ⟨rfl, ?_, ?_, ?_⟩,
          ⟨rfl, ?_, ?_, ?_⟩, ⟨rfl, ?_, ?_, ?_⟩⟩
  · intro j hj
    exact joint_writeThrough_fixed _ w _ j
      ((joint_congr_handle _ s w rfl).trans hj)
  · intro hn
    exact writeThrough_of_joint_none _ w _
      ((joint_congr_handle _ s w rfl).trans hn)
  · intro w2 body hok
    exact joint_after_connect_ok _ body w2 hok
  · intro j hj
    exact joint_writeThrough_fixed _ w _ j
      ((joint_congr_handle _ s w rfl).trans hj)
  · intro hn
    exact writeThrough_of_joint_none _ w _
      ((joint_congr_handle _ s w rfl).trans hn)
  · intro w2 body hok
    exact joint_after_connect_ok _ body w2 hok
  · intro j hj
    exact joint_writeThrough_fixed _ w _ j
      ((joint_congr_handle _ s w rfl).trans hj)
  · intro hn
    exact writeThrough_of_joint_none _ w _
      ((joint_congr_handle _ s w rfl).trans hn)
  · intro w2 body hok
    exact joint_after_connect_ok _ body w2 hok
  · intro j hj
    exact joint_writeThrough_fixed _ w _ j
      ((joint_congr_handle _ s w rfl).trans hj)
  · intro hn
    exact writeThrough_of_joint_none _ w _
      ((joint_congr_handle _ s w rfl).trans hn)
  · intro w2 body hok
    exact joint_after_connect_ok _ body w2 hok

/-- Witness for C6: on the connected fixture, setting the owner anchor
updates the cache and the live joint immediately. -/
theorem setters_update_cache_and_live_joint_witness :
    sJoint.joint wJoint = some jDefault
    ∧ (sJoint.set_local_anchor1 pTest wJoint).1.local_anchor1 = pTest
    ∧ FixedJointConnnector.joint (sJoint.set_local_anchor1 pTest wJoint).1
        (sJoint.set_local_anchor1 pTest wJoint).2
      = some { jDefault with local_anchor1 := pTest } :=
  ⟨by decide,
   (setters_update_cache_and_live_joint sJoint wJoint pTest fTest).1.1,
   (setters_update_cache_and_live_joint sJoint wJoint pTest fTest).1.2.1
     jDefault (by decide)⟩

/-- C7: the accessors are present exactly when the handle is set, the
registry still holds it, and the stored constraint downcasts to the fixed
kind; in every other case they are `none` (absence, not an error), and the
mutable accessor resolves identically to the shared one. -/
theorem joint_accessors_present_iff (s : FixedJointConnnector) (w : World) :
    ((s.joint w).isSome ↔ ∃ h ij, s.handle = some h
        ∧ w.physics.impulse_joint_set.get h = some ij
        ∧ (ij.data.as_fixed).isSome)
    ∧ s.joint_mut w = s.joint w := by
  refine ⟨?_, rfl⟩
  rw [joint_def]
  rcases hh : s.handle with _ | h
  · simp
  · rcases hg : w.physics.impulse_joint_set.get h with _ | ij
    · simp [hg]
    · simp [hg]

/-- C8: the deletion hook is exactly a disconnect; run on a connected
connector it removes the handle's registry entry and clears both `connected`
and `handle`. -/
theorem delete_disconnects_and_clears
    (s : FixedJointConnnector) (w : World) (h0 : ImpulseJointHandle)
    (hc : s.handle = some h0) :
    s.delete w = s.disconnect w
    ∧ (s.delete w).2.physics.impulse_joint_set.get h0 = none
    ∧ (s.delete w).1.connected = none
    ∧ (s.delete w).1.handle = none := by
  have hd := disconnect_some_eq s w h0 hc
  refine ⟨rfl, ?_, ?_, ?_⟩
  · show (s.disconnect w).2.physics.impulse_joint_set.get h0 = none
    rw [hd]
    exact lookup_filter_ne _ h0
  · show (s.disconnect w).1.connected = none
    rw [hd]
  · show (s.disconnect w).1.handle = none
    rw [hd]

/-- Witness for C8 on the connected fixture. -/
theorem delete_disconnects_and_clears_witness :
    sJoint.handle = some 0
    ∧ (sJoint.delete wJoint = sJoint.disconnect wJoint
       ∧ (sJoint.delete wJoint).2.physics.impulse_joint_set.get 0 = none
       ∧ (sJoint.delete wJoint).1.connected = none
       ∧ (sJoint.delete wJoint).1.handle = none) :=
  ⟨rfl, delete_disconnects_and_clears sJoint wJoint 0 rfl⟩

/-- C9: reconnecting an already-connected connector does not remove the old
registry entry: after a successful connect the old handle's entry is still
present unchanged, while the connector now stores a different handle. -/
theorem reconnect_leaks_previous_entry
    (s : FixedJointConnnector) (body : GameObjectId) (w : World)
    (h0 : ImpulseJointHandle) (ij0 : ImpulseJoint)
    (hwf : registryWF w.physics.impulse_joint_set)
    (hc : s.handle = some h0)
    (hreg : w.physics.impulse_joint_set.get h0 = some ij0)
    (hok : (s.try_connect_to body w).1 = .ok) :
    (s.try_connect_to body w).2.2.physics.impulse_joint_set.get h0 = some ij0
    ∧ ∃ h1, (s.try_connect_to body w).2.1.handle = some h1 ∧ h1 ≠ h0 := by
  obtain ⟨rb1, rb2, _, _, heq⟩ := try_connect_to_ok_eq s body w hok
  have hlt : h0 < w.physics.impulse_joint_set.nextHandle :=
    hwf _ (mem_of_lookup_eq_some _ h0 ij0 hreg)
  constructor
  · rw [heq]
    simp only [ImpulseJointSet.get, List.lookup]
    rw [beq_false_of_ne (Nat.ne_of_lt hlt)]
    exact hreg
  · refine ⟨w.physics.impulse_joint_set.nextHandle, ?_, (Nat.ne_of_lt hlt).symm⟩
    rw [heq]

/-- Witness for C9: the connected fixture reconnects to object 2; handle 0's
entry survives and the connector now stores handle 1. -/
theorem reconnect_leaks_previous_entry_witness :
    registryWF wJoint.physics.impulse_joint_set
    ∧ sJoint.handle = some 0
    ∧ wJoint.physics.impulse_joint_set.get 0
        = some ⟨10, 20, .fixedJoint jDefault⟩
    ∧ (sJoint.try_connect_to 2 wJoint).1 = .ok
    ∧ ((sJoint.try_connect_to 2 wJoint).2.2.physics.impulse_joint_set.get 0
          = some ⟨10, 20, .fixedJoint jDefault⟩
       ∧ ∃ h1, (sJoint.try_connect_to 2 wJoint).2.1.handle = some h1
           ∧ h1 ≠ 0) :=
  ⟨by unfold registryWF; decide, rfl, by decide, by decide,
   reconnect_leaks_previous_entry sJoint 2 wJoint 0 ⟨10, 20, .fixedJoint jDefault⟩
     (by unfold registryWF; decide) rfl (by decide) (by decide)⟩

/-- C10: every public operation other than the four setters — the fallible
connect on any outcome, the convenience connect, disconnect, and the
deletion hook — leaves the four cached geometry fields unchanged. -/
theorem nonsetter_ops_preserve_geometry
    (s : FixedJointConnnector) (body : GameObjectId) (w : World) :
    geomEq (s.try_connect_to body w).2.1 s
    ∧ geomEq (s.connect_to body w).2.2.1 s
    ∧ geomEq (s.disconnect w).1 s
    ∧ geomEq (s.delete w).1 s := by
  have hd : geomEq (s.disconnect w).1 s := by
    rcases hc : s.handle with _ | h0
    · rw [disconnect_none_eq s w hc]
      exact ⟨rfl, rfl, rfl, rfl⟩
    · rw [disconnect_some_eq s w h0 hc]
      exact ⟨rfl, rfl, rfl, rfl⟩
  have ht : geomEq (s.try_connect_to body w).2.1 s := by
    by_cases hok : (s.try_connect_to body w).1 = .ok
    · obtain ⟨rb1, rb2, _, _, heq⟩ := try_connect_to_ok_eq s body w hok
      rw [heq]
      exact ⟨rfl, rfl, rfl, rfl⟩
    · rw [try_connect_to_not_ok_eq s body w hok]
      exact ⟨rfl, rfl, rfl, rfl⟩
  refine ⟨ht, ?_, hd, hd⟩
  rw [(connect_to_state_eq s body w).1]
  exact ht
